import Mathlib

/-!
Shallow embedding of `prometheus/src/cluster_metrics.rs` (cluster metrics
writer of a Solana validator node) together with the contracts of its
collaborators (`utils::write_metric`, `BanksWithCommitments::for_each_commitment`,
identity/version lookups), which are not part of the excerpt and are
modelled from the specification.

Machine integers (`u64`) are modelled as `Nat`: no arithmetic in this code
can overflow-wrap, so the embedding uses unbounded naturals.
-/

set_option linter.unusedVariables false

/-- A public key; the embedding only needs decidable equality and a
deterministic string rendering, so `Nat` suffices. -/
abbrev Pubkey := Nat

/-- A slot number (`solana_sdk::clock::Slot`, a `u64`). -/
abbrev Slot := Nat

/-- The `Lamports` newtype around a raw `u64` balance. -/
structure Lamports where
  amount : Nat
  deriving DecidableEq, Repr

/-- One entry of the vote state's vote history (`VecDeque` element);
`.slot()` projects the voted-on slot. -/
structure Lockout where
  slot : Slot
  deriving DecidableEq, Repr

/-- The vote-program state of a vote account
(`solana_vote_program::vote_state::VoteState`): the node identity it
designates, its vote history (`votes`, ordered oldest first so that
`back()` is the last element), and the cumulative credits returned by
`credits()`. -/
structure VoteState where
  node_pubkey : Pubkey
  votes : List Lockout
  credits : Nat
  deriving DecidableEq, Repr

/-- `VoteState::default()`: default (all-zero) node pubkey, empty vote
history, zero credits. -/
def VoteState.default : VoteState :=
  { node_pubkey := 0, votes := [], credits := 0 }

/-- Off-chain validator metadata (`crate::identity_info::ValidatorInfo`);
the writer only reads the display name. -/
structure ValidatorInfo where
  name : String
  deriving DecidableEq, Repr

/-- `IdentityInfoMap`: lookup from an identity pubkey to optional
metadata, modelled as an association list queried with `List.lookup`. -/
abbrev IdentityInfoMap := List (Pubkey × ValidatorInfo)

/-- An account-state snapshot at one commitment level
(`solana_runtime::bank::Bank`), restricted to the two queries the writer
makes: `vote_accounts()` (map from vote pubkey to activated stake and the
vote-program state, where `none` in the second component models an
unreadable/corrupt vote state, i.e. `vote_state()` returning `Err`) and
`get_balance` (zero for absent accounts). -/
structure Bank where
  vote_accounts : List (Pubkey × (Nat × Option VoteState))
  balances : List (Pubkey × Nat)
  deriving DecidableEq, Repr

/-- `Bank::get_balance`: the account's balance, `0` when absent. -/
def Bank.get_balance (bank : Bank) (pubkey : Pubkey) : Nat :=
  (bank.balances.lookup pubkey).getD 0

/-- The consolidated per-vote-account record (`ValidatorVoteInfo`). -/
structure ValidatorVoteInfo where
  balance : Lamports
  last_vote : Slot
  vote_credits : Nat
  identity : Pubkey
  activated_stake : Lamports
  validator_info : Option ValidatorInfo
  deriving DecidableEq, Repr

/-- `get_vote_state` (cluster_metrics.rs lines 23-49): resolve the vote
record for one bank and one vote pubkey.  Mirrors the source line by
line: look the account up in the bank's vote-account set (`?` on
absence), fall back to `VoteState::default()` when the vote-program state
is unreadable, read the identity and optional metadata, `?` on an empty
vote history (`votes.back()`), then read balance and credits. -/
def get_vote_state (bank : Bank) (vote_pubkey : Pubkey)
    (identity_info : IdentityInfoMap) : Option ValidatorVoteInfo := do
  let default_vote_state := VoteState.default
  let (activated_stake, vote_account) ← bank.vote_accounts.lookup vote_pubkey
  let vote_state := vote_account.getD default_vote_state
  let identity := vote_state.node_pubkey
  let validator_info := identity_info.lookup identity
  let last_vote ← vote_state.votes.getLast?
  let balance := Lamports.mk (bank.get_balance vote_pubkey)
  let vote_credits := vote_state.credits
  some { balance := balance
         last_vote := last_vote.slot
         vote_credits := vote_credits
         identity := identity
         activated_stake := Lamports.mk activated_stake
         validator_info := validator_info }

/-- Modelled from the spec: the fixed currency scale factor dividing a raw
lamports amount into whole SOL for display (spec 4.3 "division by a fixed,
known scale factor"). -/
def lamports_per_sol : ℚ := 1000000000

/-- Modelled from the spec: one metric series (`utils::Metric`, not in the
excerpt) — a numeric value plus an ordered label set.  The value is an
exact rational so that currency scaling is division by
`lamports_per_sol`. -/
structure Metric where
  value : ℚ
  labels : List (String × String)
  deriving DecidableEq, Repr

/-- Modelled from the spec: `Metric::new`, an unscaled integer value with
no labels. -/
def Metric.new (v : Nat) : Metric :=
  { value := (v : ℚ), labels := [] }

/-- Modelled from the spec: `Metric::new_sol`, a currency value equal to
the raw lamports amount divided by the fixed scale factor. -/
def Metric.new_sol (l : Lamports) : Metric :=
  { value := (l.amount : ℚ) / lamports_per_sol, labels := [] }

/-- Modelled from the spec: `Metric::with_label` appends one label pair. -/
def Metric.with_label (m : Metric) (key val : String) : Metric :=
  { m with labels := m.labels ++ [(key, val)] }

/-- Modelled from the spec: `Metric::with_optional_label` appends the
label only when a value is present; an absent optional label leaves the
label set untouched (no empty-string sentinel). -/
def Metric.with_optional_label (m : Metric) (key : String) (val : Option String) : Metric :=
  match val with
  | some v => m.with_label key v
  | none => m

/-- Modelled from the spec: a metric family (`utils::MetricFamily`) — a
name, static help text, a type tag and an ordered sequence of series. -/
structure MetricFamily where
  name : String
  help : String
  type_ : String
  metrics : List Metric
  deriving DecidableEq, Repr

/-- Modelled from the spec: the Commitment Fan-Out
(`BanksWithCommitments`) holds one bank per commitment level, in a fixed
deterministic order; each level carries its name for the
`commitment_level` label. -/
structure BanksWithCommitments where
  banks : List (String × Bank)
  deriving DecidableEq, Repr

/-- Modelled from the spec: `BanksWithCommitments::for_each_commitment`
applies a query to the bank at every commitment level in order, drops the
levels where the query returns nothing, and tags every produced series
with the `commitment_level` label (spec 4.1). -/
def BanksWithCommitments.for_each_commitment (bwc : BanksWithCommitments)
    (f : Bank → Option Metric) : List Metric :=
  bwc.banks.filterMap fun p => (f p.2).map fun m => m.with_label "commitment_level" p.1

/-- Modelled from the spec: the gossip identity handle
(`ClusterInfo`), restricted to the two queries the writer makes: the
node's own identity key and the version lookup. -/
structure ClusterInfo where
  id : Pubkey
  versions : List (Pubkey × String)
  deriving DecidableEq, Repr

/-- `ClusterInfo::get_node_version`: optional version string for a key. -/
def ClusterInfo.get_node_version (ci : ClusterInfo) (pubkey : Pubkey) : Option String :=
  ci.versions.lookup pubkey

/-- Modelled from the spec: `solana_version::Version::default()`
rendered to a string — the value substituted by `unwrap_or_default` when
the version lookup has no entry for the node's identity. -/
def default_version : String := "0.0.0"

/-- An I/O error surfaced by the output sink. -/
structure IOError where
  message : String
  deriving DecidableEq, Repr

/-- Modelled from the spec: the output sink (`W: io::Write`).  `buffer`
is the list of chunks written so far (the bytes on the sink are their
concatenation); `failOn` injects a write failure on the n-th write call
(counted by `writeCount`) so that sink failures can be analysed. -/
structure Sink where
  buffer : List String
  failOn : Option Nat
  writeCount : Nat
  deriving DecidableEq, Repr

/-- One write call on the sink: fails exactly when the fault injection
point is reached, otherwise appends the chunk. -/
def Sink.write (s : Sink) (data : String) : Sink × Option IOError :=
  if s.failOn = some s.writeCount then
    ({ s with writeCount := s.writeCount + 1 }, some { message := "write failure" })
  else
    ({ s with buffer := s.buffer ++ [data], writeCount := s.writeCount + 1 }, none)

/-- Deterministic rendering of a rational metric value. -/
def render_value (q : ℚ) : String :=
  if q.den = 1 then toString q.num else toString q.num ++ "/" ++ toString q.den

/-- Modelled from the spec: rendering of a label set,
`\x7blabel1="v1",label2="v2"\x7d`, empty for no labels (spec section 6). -/
def render_labels : List (String × String) → String
  | [] => ""
  | ls => "\x7b" ++ String.intercalate "," (ls.map fun p => p.1 ++ "=\"" ++ p.2 ++ "\"") ++ "\x7d"

/-- Modelled from the spec: one series line of the exposition format. -/
def render_metric (name : String) (m : Metric) : String :=
  name ++ render_labels m.labels ++ " " ++ render_value m.value ++ "\n"

/-- Modelled from the spec: the text block of one metric family — HELP
and TYPE comment lines followed by one line per series, in order. -/
def render_family (fam : MetricFamily) : String :=
  "# HELP " ++ fam.name ++ " " ++ fam.help ++ "\n" ++
  "# TYPE " ++ fam.name ++ " " ++ fam.type_ ++ "\n" ++
  String.join (fam.metrics.map (render_metric fam.name))

/-- Modelled from the spec: `utils::write_metric` renders one family and
writes it to the sink; the only failure it can surface is the sink's
write failure. -/
def write_metric (out : Sink) (family : MetricFamily) : Sink × Option IOError :=
  out.write (render_family family)

/-- Sequencing of fallible writes: the Rust `?` operator — on success
continue with the mutated sink, on failure return the error at once,
keeping what the sink already holds. -/
def andThenWrite (r : Sink × Option IOError) (k : Sink → Sink × Option IOError) :
    Sink × Option IOError :=
  match r with
  | (out, none) => k out
  | (out, some e) => (out, some e)

/-- The identity-info family (cluster_metrics.rs lines 63-73): a single
series of value `1` labeled with the node's identity key. -/
def identity_public_key_family (identity_pubkey : Pubkey) : MetricFamily :=
  { name := "solana_node_identity_public_key_info"
    help := "The node's current identity"
    type_ := "counter"
    metrics := [(Metric.new 1).with_label "identity_account" (toString identity_pubkey)] }

/-- The identity-balance family (lines 75-88): the identity account's
balance, currency-scaled, fanned out across commitment levels. -/
def identity_balance_family (bwc : BanksWithCommitments) (identity_pubkey : Pubkey) :
    MetricFamily :=
  { name := "solana_node_identity_balance_sol"
    help := "The balance of the node's identity account"
    type_ := "gauge"
    metrics := bwc.for_each_commitment fun bank =>
      some ((Metric.new_sol (Lamports.mk (bank.get_balance identity_pubkey))).with_label
        "identity_account" (toString identity_pubkey)) }

/-- The version-info family (lines 90-98): a single series of value `1`
labeled with the node's version string. -/
def version_info_family (version : String) : MetricFamily :=
  { name := "solana_node_version_info"
    help := "The current Solana node's version"
    type_ := "counter"
    metrics := [(Metric.new 1).with_label "version" version] }

/-- The per-vote-account last-vote family (lines 102-122): for each
commitment level where the resolver yields a record, the record's
last-vote slot, unscaled. -/
def last_vote_slot_family (bwc : BanksWithCommitments) (identity_info : IdentityInfoMap)
    (vote_account : Pubkey) : MetricFamily :=
  { name := "solana_validator_last_vote_slot"
    help := "The voted-on slot of the validator's last vote that got included in the chain"
    type_ := "gauge"
    metrics := bwc.for_each_commitment fun bank => do
      let vote_info ← get_vote_state bank vote_account identity_info
      some ((((Metric.new vote_info.last_vote).with_label
        "identity_account" (toString vote_info.identity)).with_label
        "vote_account" (toString vote_account)).with_optional_label
        "validator_name" (vote_info.validator_info.map fun v => v.name)) }

/-- The per-vote-account balance family (lines 124-143): the vote
account's balance, currency-scaled. -/
def vote_account_balance_family (bwc : BanksWithCommitments) (identity_info : IdentityInfoMap)
    (vote_account : Pubkey) : MetricFamily :=
  { name := "solana_validator_vote_account_balance_sol"
    help := "The balance of the vote account at the given address"
    type_ := "gauge"
    metrics := bwc.for_each_commitment fun bank => do
      let vote_info ← get_vote_state bank vote_account identity_info
      some ((((Metric.new_sol vote_info.balance).with_label
        "identity_account" (toString vote_info.identity)).with_label
        "vote_account" (toString vote_account)).with_optional_label
        "validator_name" (vote_info.validator_info.map fun v => v.name)) }

/-- The per-vote-account credits family (lines 145-164): cumulative vote
credits, unscaled. -/
def vote_credits_family (bwc : BanksWithCommitments) (identity_info : IdentityInfoMap)
    (vote_account : Pubkey) : MetricFamily :=
  { name := "solana_validator_vote_credits"
    help := "The total number of vote credits credited to this vote account"
    type_ := "gauge"
    metrics := bwc.for_each_commitment fun bank => do
      let vote_info ← get_vote_state bank vote_account identity_info
      some ((((Metric.new vote_info.vote_credits).with_label
        "identity_account" (toString vote_info.identity)).with_label
        "vote_account" (toString vote_account)).with_optional_label
        "validator_name" (vote_info.validator_info.map fun v => v.name)) }

/-- The per-vote-account stake family (lines 166-185): activated stake,
currency-scaled. -/
def active_stake_family (bwc : BanksWithCommitments) (identity_info : IdentityInfoMap)
    (vote_account : Pubkey) : MetricFamily :=
  { name := "solana_validator_active_stake_sol"
    help := "The total amount of Sol actively staked to this validator"
    type_ := "gauge"
    metrics := bwc.for_each_commitment fun bank => do
      let vote_info ← get_vote_state bank vote_account identity_info
      some ((((Metric.new_sol vote_info.activated_stake).with_label
        "identity_account" (toString vote_info.identity)).with_label
        "vote_account" (toString vote_account)).with_optional_label
        "validator_name" (vote_info.validator_info.map fun v => v.name)) }

/-- The four families emitted for one tracked vote account, in source
order (lines 102-185). -/
def vote_account_families (bwc : BanksWithCommitments) (identity_info : IdentityInfoMap)
    (vote_account : Pubkey) : List MetricFamily :=
  [last_vote_slot_family bwc identity_info vote_account,
   vote_account_balance_family bwc identity_info vote_account,
   vote_credits_family bwc identity_info vote_account,
   active_stake_family bwc identity_info vote_account]

/-- The body of the `for vote_account in vote_accounts.iter()` loop
(lines 101-186): the four `write_metric(out, ...)?` calls for one
account. -/
def write_vote_account_metrics (bwc : BanksWithCommitments)
    (identity_info : IdentityInfoMap) (vote_account : Pubkey) (out : Sink) :
    Sink × Option IOError :=
  andThenWrite (write_metric out (last_vote_slot_family bwc identity_info vote_account)) fun out =>
  andThenWrite (write_metric out (vote_account_balance_family bwc identity_info vote_account)) fun out =>
  andThenWrite (write_metric out (vote_credits_family bwc identity_info vote_account)) fun out =>
  write_metric out (active_stake_family bwc identity_info vote_account)

/-- The writer's loop over the tracked vote accounts, in iteration
order; a failed write aborts the rest of the loop. -/
def write_vote_accounts (bwc : BanksWithCommitments) (identity_info : IdentityInfoMap) :
    List Pubkey → Sink → Sink × Option IOError
  | [], out => (out, none)
  | v :: rest, out =>
    andThenWrite (write_vote_account_metrics bwc identity_info v out)
      (write_vote_accounts bwc identity_info rest)

/-- `write_cluster_metrics` (cluster_metrics.rs lines 51-189): read the
node identity and its version (defaulted when absent), then emit, in
order, the identity-info family, the identity-balance family, the
version-info family, and the four families per tracked vote account;
every `write_metric(out, ...)?` propagates a sink failure at once. -/
def write_cluster_metrics (banks_with_commitments : BanksWithCommitments)
    (cluster_info : ClusterInfo) (vote_accounts : List Pubkey)
    (identity_info : IdentityInfoMap) (out : Sink) : Sink × Option IOError :=
  let identity_pubkey := cluster_info.id
  let version := (cluster_info.get_node_version identity_pubkey).getD default_version
  andThenWrite (write_metric out (identity_public_key_family identity_pubkey)) fun out =>
  andThenWrite (write_metric out (identity_balance_family banks_with_commitments identity_pubkey)) fun out =>
  andThenWrite (write_metric out (version_info_family version)) fun out =>
  write_vote_accounts banks_with_commitments identity_info vote_accounts out

/-- The full family sequence the writer emits, in emission order. -/
def cluster_metric_families (bwc : BanksWithCommitments) (cluster_info : ClusterInfo)
    (vote_accounts : List Pubkey) (identity_info : IdentityInfoMap) : List MetricFamily :=
  identity_public_key_family cluster_info.id ::
  identity_balance_family bwc cluster_info.id ::
  version_info_family ((cluster_info.get_node_version cluster_info.id).getD default_version) ::
  vote_accounts.flatMap (vote_account_families bwc identity_info)

/-- Writing a list of families in sequence, aborting on the first
failure: the normal form the writer is proved equal to. -/
def write_families : List MetricFamily → Sink → Sink × Option IOError
  | [], out => (out, none)
  | f :: rest, out => andThenWrite (write_metric out f) (write_families rest)

/-- The label keys of a series, in order. -/
def Metric.label_keys (m : Metric) : List String :=
  m.labels.map Prod.fst

/-- The common label decoration of every per-vote-account series (source
lines 112-118, 132-139, 153-160, 174-181): identity-account and
vote-account labels, then the optional validator-name label. -/
def vote_account_labels (vote_account : Pubkey) (vi : ValidatorVoteInfo)
    (base : Metric) : Metric :=
  ((base.with_label "identity_account" (toString vi.identity)).with_label
    "vote_account" (toString vote_account)).with_optional_label
    "validator_name" (vi.validator_info.map fun v => v.name)

/-! Concrete fixtures: a single-commitment scenario with two tracked vote
accounts — account `1` ("A") has one vote and identity metadata, account
`2` ("B") exists in the vote-account set but has an empty vote history
and no metadata. -/

/-- Vote state of account A: one vote (slot 42), 7 credits, node 10. -/
def vsA : VoteState := { node_pubkey := 10, votes := [{ slot := 42 }], credits := 7 }

/-- Vote state of account B: no votes, node 20. -/
def vsB : VoteState := { node_pubkey := 20, votes := [], credits := 0 }

/-- Vote state of account C: one vote (slot 41), node 30 — which has no
identity-metadata entry. -/
def vsC : VoteState := { node_pubkey := 30, votes := [{ slot := 41 }], credits := 4 }

/-- The example bank: all three vote accounts present, balances for each
and for the node identity account 5. -/
def bankEx : Bank :=
  { vote_accounts := [(1, (100, some vsA)), (2, (50, some vsB)), (3, (70, some vsC))]
    balances := [(1, 3000000000), (2, 500), (3, 1500000000), (5, 2000000000)] }

/-- A bank in which account B's vote-program state is unreadable. -/
def bankUnreadable : Bank :=
  { vote_accounts := [(2, (50, none))], balances := [(2, 500)] }

/-- One commitment level ("finalized") over the example bank. -/
def bwcEx : BanksWithCommitments := { banks := [("finalized", bankEx)] }

/-- Identity metadata: only A's node identity (10) has an entry. -/
def iiEx : IdentityInfoMap := [(10, { name := "Alice" })]

/-- Cluster identity handle with no version entry for the node's own
identity key 5. -/
def ciEx : ClusterInfo := { id := 5, versions := [] }

/-- A fresh sink: empty buffer, no fault injection. -/
def sinkEx : Sink := { buffer := [], failOn := none, writeCount := 0 }

/-- A fresh sink whose third write call (index 2) fails. -/
def sinkFail3 : Sink := { buffer := [], failOn := some 2, writeCount := 0 }

/-- A second fresh sink with a different write counter, for the
determinism scenario. -/
def sinkEx2 : Sink := { buffer := [], failOn := none, writeCount := 5 }

/-- A bank like `bankUnreadable` but with B's vote state replaced by the
explicit default vote state. -/
def bankDefaultVote : Bank :=
  { vote_accounts := [(2, (50, some VoteState.default))], balances := [(2, 500)] }

/-- The record the resolver produces for account 1 in the example bank. -/
def viAEx : ValidatorVoteInfo :=
  { balance := { amount := 3000000000 }, last_vote := 42, vote_credits := 7,
    identity := 10, activated_stake := { amount := 100 },
    validator_info := some { name := "Alice" } }

/-- The record the resolver produces for account 3 in the example bank —
its node identity 30 has no metadata entry. -/
def viCEx : ValidatorVoteInfo :=
  { balance := { amount := 1500000000 }, last_vote := 41, vote_credits := 4,
    identity := 30, activated_stake := { amount := 70 }, validator_info := none }

/-- The single series of account 1's balance family in the example
scenario. -/
def mBalEx : Metric :=
  (vote_account_labels 1 viAEx (Metric.new_sol viAEx.balance)).with_label
    "commitment_level" "finalized"

/-- The single series of account 1's last-vote family in the example
scenario. -/
def mLastVoteEx : Metric :=
  (vote_account_labels 1 viAEx (Metric.new viAEx.last_vote)).with_label
    "commitment_level" "finalized"

/-- The single series of account 3's last-vote family — its node identity
has no metadata entry, so the series carries no name label. -/
def mLastVoteC : Metric :=
  (vote_account_labels 3 viCEx (Metric.new viCEx.last_vote)).with_label
    "commitment_level" "finalized"

/-! Structural lemmas about the write chain. -/

/-- Sequencing of fallible writes is associative. -/
theorem andThenWrite_assoc (r : Sink × Option IOError)
    (k₁ : Sink → Sink × Option IOError) (k₂ : Sink → Sink × Option IOError) :
    andThenWrite (andThenWrite r k₁) k₂ =
      andThenWrite r fun s => andThenWrite (k₁ s) k₂ := by
  rcases r with ⟨out, e⟩
  cases e <;> rfl

/-- The unit on the right of the sequencing. -/
theorem andThenWrite_pure (r : Sink × Option IOError) :
    andThenWrite r (fun s => (s, none)) = r := by
  rcases r with ⟨out, e⟩
  cases e <;> rfl

/-- Writing a concatenation of family lists sequences the two writes. -/
theorem write_families_append (xs ys : List MetricFamily) (out : Sink) :
    write_families (xs ++ ys) out =
      andThenWrite (write_families xs out) (write_families ys) := by
  induction xs generalizing out with
  | nil => rfl
  | cons f rest ih =>
    simp only [List.cons_append, write_families, andThenWrite_assoc]
    rcases write_metric out f with ⟨out', e⟩
    cases e with
    | none => simpa [andThenWrite] using ih out'
    | some err => rfl

/-- The loop body for one vote account writes exactly its four families. -/
theorem write_vote_account_metrics_eq (bwc : BanksWithCommitments)
    (identity_info : IdentityInfoMap) (v : Pubkey) (out : Sink) :
    write_vote_account_metrics bwc identity_info v out =
      write_families (vote_account_families bwc identity_info v) out := by
  simp only [write_vote_account_metrics, vote_account_families, write_families,
    andThenWrite_pure]

/-- The writer's vote-account loop writes the flattened family list. -/
theorem write_vote_accounts_eq (bwc : BanksWithCommitments)
    (identity_info : IdentityInfoMap) (va : List Pubkey) (out : Sink) :
    write_vote_accounts bwc identity_info va out =
      write_families (va.flatMap (vote_account_families bwc identity_info)) out := by
  induction va generalizing out with
  | nil => rfl
  | cons v rest ih =>
    simp only [write_vote_accounts, List.flatMap_cons, write_families_append,
      write_vote_account_metrics_eq]
    congr 1
    funext s
    exact ih s

/-- `write_cluster_metrics` writes exactly the family sequence
`cluster_metric_families`, in order. -/
theorem write_cluster_metrics_eq (bwc : BanksWithCommitments) (ci : ClusterInfo)
    (va : List Pubkey) (identity_info : IdentityInfoMap) (out : Sink) :
    write_cluster_metrics bwc ci va identity_info out =
      write_families (cluster_metric_families bwc ci va identity_info) out := by
  simp only [write_cluster_metrics, cluster_metric_families, write_families,
    write_vote_accounts_eq]

/-- On a sink with no fault injection, writing a family list appends each
family's rendering in order and reports no error. -/
theorem write_families_success (fams : List MetricFamily) (out : Sink)
    (h : out.failOn = none) :
    write_families fams out =
      ({ buffer := out.buffer ++ fams.map render_family, failOn := none,
         writeCount := out.writeCount + fams.length }, none) := by
  induction fams generalizing out with
  | nil => simp [write_families, ← h]
  | cons f rest ih =>
    simp only [write_families, write_metric, Sink.write, h]
    rw [if_neg (by simp)]
    simp only [andThenWrite]
    rw [ih _ (by simp [h])]
    simp [List.length_cons]
    omega

/-! Characterisation of the resolver. -/

/-- `get_vote_state` returns `some vi` exactly when the vote account is
in the bank's vote-account set and the effective vote state (the stored
one, or the default when unreadable) has a last vote; the record's fields
are then determined. -/
theorem get_vote_state_eq_some_iff (bank : Bank) (vote_pubkey : Pubkey)
    (identity_info : IdentityInfoMap) (vi : ValidatorVoteInfo) :
    get_vote_state bank vote_pubkey identity_info = some vi ↔
      ∃ stake vs last,
        bank.vote_accounts.lookup vote_pubkey = some (stake, vs) ∧
        (vs.getD VoteState.default).votes.getLast? = some last ∧
        vi = { balance := Lamports.mk (bank.get_balance vote_pubkey)
               last_vote := last.slot
               vote_credits := (vs.getD VoteState.default).credits
               identity := (vs.getD VoteState.default).node_pubkey
               activated_stake := Lamports.mk stake
               validator_info :=
                 identity_info.lookup (vs.getD VoteState.default).node_pubkey } := by
  unfold get_vote_state
  cases hl : bank.vote_accounts.lookup vote_pubkey with
  | none => simp
  | some p =>
    rcases p with ⟨stake, vs⟩
    cases hg : (vs.getD VoteState.default).votes.getLast? with
    | none => simp [hg]
    | some last =>
      simp [hg]
      constructor
      · intro h
        exact ⟨stake, vs, ⟨rfl, rfl⟩, last, hg, h.symm⟩
      · rintro ⟨s₁, v₁, ⟨rfl, rfl⟩, x, hx, h⟩
        cases Option.some.inj (hg.symm.trans hx)
        exact h.symm

/-- The resolver yields a record iff the vote account is present and the
effective vote state records at least one vote. -/
theorem get_vote_state_isSome_iff (bank : Bank) (vote_pubkey : Pubkey)
    (identity_info : IdentityInfoMap) :
    (get_vote_state bank vote_pubkey identity_info).isSome ↔
      ∃ stake vs, bank.vote_accounts.lookup vote_pubkey = some (stake, vs) ∧
        (vs.getD VoteState.default).votes ≠ [] := by
  rw [Option.isSome_iff_exists]
  constructor
  · rintro ⟨vi, hvi⟩
    rcases (get_vote_state_eq_some_iff bank vote_pubkey identity_info vi).mp hvi with
      ⟨stake, vs, last, hl, hg, _⟩
    exact ⟨stake, vs, hl, by simpa using List.getLast?_isSome.mp (by simp [hg])⟩
  · rintro ⟨stake, vs, hl, hne⟩
    rcases Option.isSome_iff_exists.mp (List.getLast?_isSome.mpr hne) with ⟨last, hg⟩
    exact ⟨_, (get_vote_state_eq_some_iff bank vote_pubkey identity_info _).mpr
      ⟨stake, vs, last, hl, hg, rfl⟩⟩

/-! Membership and cardinality of fanned-out families. -/

/-- A series belongs to a fan-out exactly when some commitment level's
query produced it, tagged with that level's label. -/
theorem mem_for_each_commitment (bwc : BanksWithCommitments) (f : Bank → Option Metric)
    (m : Metric) :
    m ∈ bwc.for_each_commitment f ↔
      ∃ lvl bank m₀, (lvl, bank) ∈ bwc.banks ∧ f bank = some m₀ ∧
        m = m₀.with_label "commitment_level" lvl := by
  simp only [BanksWithCommitments.for_each_commitment, List.mem_filterMap,
    Option.map_eq_some']
  constructor
  · rintro ⟨⟨lvl, bank⟩, hmem, m₀, hf, rfl⟩
    exact ⟨lvl, bank, m₀, hmem, hf, rfl⟩
  · rintro ⟨lvl, bank, m₀, hmem, hf, rfl⟩
    exact ⟨⟨lvl, bank⟩, hmem, m₀, hf, rfl⟩

/-- A fan-out's length counts the commitment levels whose query yields a
value. -/
theorem for_each_commitment_length (bwc : BanksWithCommitments) (f : Bank → Option Metric) :
    (bwc.for_each_commitment f).length =
      (bwc.banks.filter fun p => (f p.2).isSome).length := by
  unfold BanksWithCommitments.for_each_commitment
  induction bwc.banks with
  | nil => rfl
  | cons p rest ih =>
    cases h : f p.2 <;> simp [List.filterMap_cons, List.filter_cons, h, ih]

/-- Generic membership in a per-vote-account family: a series is present
exactly when some commitment level's resolver yields a record, and the
series is the record's metric with the level label appended. -/
theorem mem_vote_family (bwc : BanksWithCommitments) (identity_info : IdentityInfoMap)
    (v : Pubkey) (g : ValidatorVoteInfo → Metric) (m : Metric) :
    (m ∈ bwc.for_each_commitment fun bank => do
        let vote_info ← get_vote_state bank v identity_info
        some (g vote_info)) ↔
      ∃ lvl bank vi, (lvl, bank) ∈ bwc.banks ∧
        get_vote_state bank v identity_info = some vi ∧
        m = (g vi).with_label "commitment_level" lvl := by
  rw [mem_for_each_commitment]
  constructor
  · rintro ⟨lvl, bank, m₀, hmem, hf, rfl⟩
    rcases hvi : get_vote_state bank v identity_info with _ | vi
    · rw [hvi] at hf
      simp at hf
    · rw [hvi] at hf
      simp at hf
      exact ⟨lvl, bank, vi, hmem, hvi, by rw [hf]⟩
  · rintro ⟨lvl, bank, vi, hmem, hvi, rfl⟩
    exact ⟨lvl, bank, g vi, hmem, by rw [hvi]; rfl, rfl⟩

/-- Generic cardinality of a per-vote-account family: one series per
commitment level at which the resolver yields a record. -/
theorem vote_family_length (bwc : BanksWithCommitments) (identity_info : IdentityInfoMap)
    (v : Pubkey) (g : ValidatorVoteInfo → Metric) :
    (bwc.for_each_commitment fun bank => do
        let vote_info ← get_vote_state bank v identity_info
        some (g vote_info)).length =
      (bwc.banks.filter fun p => (get_vote_state p.2 v identity_info).isSome).length := by
  rw [for_each_commitment_length]
  have hpq : (fun (p : String × Bank) => ((do
      let vote_info ← get_vote_state p.2 v identity_info
      some (g vote_info) : Option Metric)).isSome) =
      fun (p : String × Bank) => (get_vote_state p.2 v identity_info).isSome := by
    funext p
    cases h : get_vote_state p.2 v identity_info <;> simp [h]
  rw [hpq]

/-- Membership in the last-vote family. -/
theorem mem_last_vote_slot_family (bwc : BanksWithCommitments)
    (identity_info : IdentityInfoMap) (v : Pubkey) (m : Metric) :
    m ∈ (last_vote_slot_family bwc identity_info v).metrics ↔
      ∃ lvl bank vi, (lvl, bank) ∈ bwc.banks ∧
        get_vote_state bank v identity_info = some vi ∧
        m = (vote_account_labels v vi (Metric.new vi.last_vote)).with_label
          "commitment_level" lvl :=
  mem_vote_family bwc identity_info v
    (fun vi => vote_account_labels v vi (Metric.new vi.last_vote)) m

/-- Membership in the vote-account-balance family. -/
theorem mem_vote_account_balance_family (bwc : BanksWithCommitments)
    (identity_info : IdentityInfoMap) (v : Pubkey) (m : Metric) :
    m ∈ (vote_account_balance_family bwc identity_info v).metrics ↔
      ∃ lvl bank vi, (lvl, bank) ∈ bwc.banks ∧
        get_vote_state bank v identity_info = some vi ∧
        m = (vote_account_labels v vi (Metric.new_sol vi.balance)).with_label
          "commitment_level" lvl :=
  mem_vote_family bwc identity_info v
    (fun vi => vote_account_labels v vi (Metric.new_sol vi.balance)) m

/-- Membership in the vote-credits family. -/
theorem mem_vote_credits_family (bwc : BanksWithCommitments)
    (identity_info : IdentityInfoMap) (v : Pubkey) (m : Metric) :
    m ∈ (vote_credits_family bwc identity_info v).metrics ↔
      ∃ lvl bank vi, (lvl, bank) ∈ bwc.banks ∧
        get_vote_state bank v identity_info = some vi ∧
        m = (vote_account_labels v vi (Metric.new vi.vote_credits)).with_label
          "commitment_level" lvl :=
  mem_vote_family bwc identity_info v
    (fun vi => vote_account_labels v vi (Metric.new vi.vote_credits)) m

/-- Membership in the activated-stake family. -/
theorem mem_active_stake_family (bwc : BanksWithCommitments)
    (identity_info : IdentityInfoMap) (v : Pubkey) (m : Metric) :
    m ∈ (active_stake_family bwc identity_info v).metrics ↔
      ∃ lvl bank vi, (lvl, bank) ∈ bwc.banks ∧
        get_vote_state bank v identity_info = some vi ∧
        m = (vote_account_labels v vi (Metric.new_sol vi.activated_stake)).with_label
          "commitment_level" lvl :=
  mem_vote_family bwc identity_info v
    (fun vi => vote_account_labels v vi (Metric.new_sol vi.activated_stake)) m

/-- Cardinality of the last-vote family. -/
theorem last_vote_slot_family_length (bwc : BanksWithCommitments)
    (identity_info : IdentityInfoMap) (v : Pubkey) :
    (last_vote_slot_family bwc identity_info v).metrics.length =
      (bwc.banks.filter fun p => (get_vote_state p.2 v identity_info).isSome).length :=
  vote_family_length bwc identity_info v
    (fun vi => vote_account_labels v vi (Metric.new vi.last_vote))

/-- Cardinality of the vote-account-balance family. -/
theorem vote_account_balance_family_length (bwc : BanksWithCommitments)
    (identity_info : IdentityInfoMap) (v : Pubkey) :
    (vote_account_balance_family bwc identity_info v).metrics.length =
      (bwc.banks.filter fun p => (get_vote_state p.2 v identity_info).isSome).length :=
  vote_family_length bwc identity_info v
    (fun vi => vote_account_labels v vi (Metric.new_sol vi.balance))

/-- Cardinality of the vote-credits family. -/
theorem vote_credits_family_length (bwc : BanksWithCommitments)
    (identity_info : IdentityInfoMap) (v : Pubkey) :
    (vote_credits_family bwc identity_info v).metrics.length =
      (bwc.banks.filter fun p => (get_vote_state p.2 v identity_info).isSome).length :=
  vote_family_length bwc identity_info v
    (fun vi => vote_account_labels v vi (Metric.new vi.vote_credits))

/-- Cardinality of the activated-stake family. -/
theorem active_stake_family_length (bwc : BanksWithCommitments)
    (identity_info : IdentityInfoMap) (v : Pubkey) :
    (active_stake_family bwc identity_info v).metrics.length =
      (bwc.banks.filter fun p => (get_vote_state p.2 v identity_info).isSome).length :=
  vote_family_length bwc identity_info v
    (fun vi => vote_account_labels v vi (Metric.new_sol vi.activated_stake))

/-- On a sink that fails on its (k+1)-st write call, writing a family
list stops right at the failing family: the buffer keeps exactly the
first k renderings, nothing is rolled back, and the write failure is
returned. -/
theorem write_families_fail (fams : List MetricFamily) (out : Sink) (k : Nat)
    (h : out.failOn = some (out.writeCount + k)) (hk : k < fams.length) :
    write_families fams out =
      ({ buffer := out.buffer ++ (fams.take k).map render_family,
         failOn := out.failOn, writeCount := out.writeCount + k + 1 },
       some { message := "write failure" }) := by
  induction fams generalizing out k with
  | nil => simp at hk
  | cons f rest ih =>
    cases k with
    | zero =>
      simp only [write_families, write_metric, Sink.write]
      rw [if_pos (by simp [h])]
      simp [andThenWrite, h]
    | succ k' =>
      simp only [write_families, write_metric, Sink.write]
      rw [if_neg (by simp [h])]
      simp only [andThenWrite]
      have hrec := ih (Sink.mk (out.buffer ++ [render_family f]) out.failOn
          (out.writeCount + 1)) k'
        (by show out.failOn = some (out.writeCount + 1 + k'); rw [h]; congr 1; omega)
        (by simp at hk; omega)
      rw [hrec]
      simp [List.take_succ_cons]
      omega

/-- Adding a label leaves the series value unchanged. -/
theorem with_label_value (m : Metric) (k v : String) :
    (m.with_label k v).value = m.value := rfl

/-- Adding an optional label leaves the series value unchanged. -/
theorem with_optional_label_value (m : Metric) (k : String) (v : Option String) :
    (m.with_optional_label k v).value = m.value := by
  cases v <;> rfl

/-- The common per-vote-account decoration leaves the value unchanged. -/
theorem vote_account_labels_value (v : Pubkey) (vi : ValidatorVoteInfo) (base : Metric) :
    (vote_account_labels v vi base).value = base.value := by
  cases hv : vi.validator_info <;>
    simp [vote_account_labels, Metric.with_label, Metric.with_optional_label, hv]

/-- The label keys of a fully decorated per-vote-account series: the
`validator_name` key appears exactly when metadata is present. -/
theorem vote_account_labels_keys (v : Pubkey) (vi : ValidatorVoteInfo) (base : Metric)
    (hbase : base.labels = []) (lvl : String) :
    ((vote_account_labels v vi base).with_label "commitment_level" lvl).label_keys =
      match vi.validator_info with
      | some _ => ["identity_account", "vote_account", "validator_name", "commitment_level"]
      | none => ["identity_account", "vote_account", "commitment_level"] := by
  cases hv : vi.validator_info <;>
    simp [vote_account_labels, Metric.with_label, Metric.with_optional_label,
      Metric.label_keys, hbase, hv]

/-! Claims. -/

/-- C1: for every snapshot and vote-account key, `get_vote_state` returns
a record iff the vote account is present in the snapshot's vote-account
set and its (effective) vote state records at least one vote; when the
vote history is empty it returns nothing at all, not a record with a
sentinel slot. -/
theorem claim_C1_resolver_iff (bank : Bank) (vote_pubkey : Pubkey)
    (identity_info : IdentityInfoMap) :
    ((get_vote_state bank vote_pubkey identity_info).isSome ↔
      ∃ stake vs, bank.vote_accounts.lookup vote_pubkey = some (stake, vs) ∧
        (vs.getD VoteState.default).votes ≠ []) ∧
    ∀ stake vs, bank.vote_accounts.lookup vote_pubkey = some (stake, vs) →
      (vs.getD VoteState.default).votes = [] →
      get_vote_state bank vote_pubkey identity_info = none := by
  refine ⟨get_vote_state_isSome_iff bank vote_pubkey identity_info, ?_⟩
  intro stake vs hl hempty
  cases hres : get_vote_state bank vote_pubkey identity_info with
  | none => rfl
  | some vi =>
    rcases (get_vote_state_eq_some_iff bank vote_pubkey identity_info vi).mp hres with
      ⟨s₁, v₁, last, hl₁, hg, _⟩
    have hv : vs = v₁ := congrArg Prod.snd (Option.some.inj (hl.symm.trans hl₁))
    rw [← hv, hempty] at hg
    simp at hg

/-- Witness for C1: in the example snapshot, account 2 (present, empty
vote history) yields no record, while account 1 (one vote) yields one. -/
theorem claim_C1_witness :
    get_vote_state bankEx 2 iiEx = none ∧ (get_vote_state bankEx 1 iiEx).isSome :=
  ⟨(claim_C1_resolver_iff bankEx 2 iiEx).2 50 (some vsB) (by decide) (by decide),
   ((claim_C1_resolver_iff bankEx 1 iiEx).1).mpr ⟨100, some vsA, by decide, by decide⟩⟩

/-- C8: when the vote-program state of an account present in the
vote-account set is unreadable, the resolver substitutes the default
(empty) vote state instead of failing: the result is the same as for an
explicit default vote state, and the resolution proceeds to the last-vote
step, which yields no record (`none`) — no error is raised. -/
theorem claim_C8_default_vote_state (bank bank' : Bank) (v : Pubkey)
    (identity_info : IdentityInfoMap) (stake stake' : Nat)
    (h : bank.vote_accounts.lookup v = some (stake, none))
    (h' : bank'.vote_accounts.lookup v = some (stake', some VoteState.default)) :
    get_vote_state bank v identity_info = none ∧
    get_vote_state bank v identity_info = get_vote_state bank' v identity_info := by
  have h1 : get_vote_state bank v identity_info = none := by
    unfold get_vote_state
    rw [h]
    rfl
  have h2 : get_vote_state bank' v identity_info = none := by
    unfold get_vote_state
    rw [h']
    rfl
  exact ⟨h1, h1.trans h2.symm⟩

/-- Witness for C8: account 2 with an unreadable vote state resolves to
no record, the same as with an explicit default vote state. -/
theorem claim_C8_witness :
    get_vote_state bankUnreadable 2 iiEx = none ∧
    get_vote_state bankUnreadable 2 iiEx = get_vote_state bankDefaultVote 2 iiEx :=
  claim_C8_default_vote_state bankUnreadable bankDefaultVote 2 iiEx 50 50
    (by decide) (by decide)

/-- C10: for every tracked vote account, each of the four
per-vote-account families holds exactly one series per commitment level
at which the resolver yields a record — the same count for all four, so a
level contributes a series to all four families or to none, because all
four gate on `get_vote_state` returning a record. -/
theorem claim_C10_uniform_presence (bwc : BanksWithCommitments)
    (identity_info : IdentityInfoMap) (v : Pubkey) :
    (last_vote_slot_family bwc identity_info v).metrics.length =
      (bwc.banks.filter fun p => (get_vote_state p.2 v identity_info).isSome).length ∧
    (vote_account_balance_family bwc identity_info v).metrics.length =
      (bwc.banks.filter fun p => (get_vote_state p.2 v identity_info).isSome).length ∧
    (vote_credits_family bwc identity_info v).metrics.length =
      (bwc.banks.filter fun p => (get_vote_state p.2 v identity_info).isSome).length ∧
    (active_stake_family bwc identity_info v).metrics.length =
      (bwc.banks.filter fun p => (get_vote_state p.2 v identity_info).isSome).length :=
  ⟨last_vote_slot_family_length bwc identity_info v,
   vote_account_balance_family_length bwc identity_info v,
   vote_credits_family_length bwc identity_info v,
   active_stake_family_length bwc identity_info v⟩

/-- Four families are emitted per tracked vote account. -/
theorem vote_account_families_flatMap_length (bwc : BanksWithCommitments)
    (identity_info : IdentityInfoMap) (va : List Pubkey) :
    (va.flatMap (vote_account_families bwc identity_info)).length = 4 * va.length := by
  induction va with
  | nil => rfl
  | cons v rest ih =>
    simp [List.flatMap_cons, vote_account_families, ih]
    omega

/-- C4: `write_cluster_metrics` emits the metric families in a fixed
sequence — identity-info (a single series of value 1 labeled with the
node's identity key), identity-balance, version-info, then for every
tracked vote account, in iteration order, last-vote slot, vote-account
balance, vote credits and activated stake — each rendered onto the sink
in exactly that order. -/
theorem claim_C4_emission_order (bwc : BanksWithCommitments) (ci : ClusterInfo)
    (va : List Pubkey) (identity_info : IdentityInfoMap) (out : Sink)
    (h : out.failOn = none) :
    write_cluster_metrics bwc ci va identity_info out =
      ({ buffer := out.buffer ++
          (identity_public_key_family ci.id ::
           identity_balance_family bwc ci.id ::
           version_info_family ((ci.get_node_version ci.id).getD default_version) ::
           va.flatMap (fun v =>
             [last_vote_slot_family bwc identity_info v,
              vote_account_balance_family bwc identity_info v,
              vote_credits_family bwc identity_info v,
              active_stake_family bwc identity_info v])).map render_family,
         failOn := none, writeCount := out.writeCount + (3 + 4 * va.length) }, none) := by
  rw [write_cluster_metrics_eq, write_families_success _ _ h]
  have hlen : (cluster_metric_families bwc ci va identity_info).length =
      3 + 4 * va.length := by
    simp only [cluster_metric_families, List.length_cons,
      vote_account_families_flatMap_length]
    omega
  rw [hlen]
  rfl

/-- Witness for C4: the concrete emission for one tracked vote account on
a fresh sink. -/
theorem claim_C4_witness :
    write_cluster_metrics bwcEx ciEx [1] iiEx sinkEx =
      ({ buffer := sinkEx.buffer ++
          (identity_public_key_family ciEx.id ::
           identity_balance_family bwcEx ciEx.id ::
           version_info_family ((ciEx.get_node_version ciEx.id).getD default_version) ::
           [1].flatMap (fun v =>
             [last_vote_slot_family bwcEx iiEx v,
              vote_account_balance_family bwcEx iiEx v,
              vote_credits_family bwcEx iiEx v,
              active_stake_family bwcEx iiEx v])).map render_family,
         failOn := none, writeCount := sinkEx.writeCount + (3 + 4 * [1].length) }, none) :=
  claim_C4_emission_order bwcEx ciEx [1] iiEx sinkEx rfl

/-- C3: a sink write failure on the (k+1)-st family aborts emission of
all subsequent families at once and surfaces that I/O error to the
caller; the families already flushed stay on the sink (no retry, no
rollback), and when the sink never fails the writer surfaces no error at
all — a sink write failure is the only failure it can return. -/
theorem claim_C3_sink_failure_aborts (bwc : BanksWithCommitments) (ci : ClusterInfo)
    (va : List Pubkey) (identity_info : IdentityInfoMap) (out : Sink) (k : Nat)
    (h0 : out.writeCount = 0) (hf : out.failOn = some k)
    (hk : k < (cluster_metric_families bwc ci va identity_info).length) :
    write_cluster_metrics bwc ci va identity_info out =
      ({ buffer := out.buffer ++
          ((cluster_metric_families bwc ci va identity_info).take k).map render_family,
         failOn := out.failOn, writeCount := k + 1 },
       some { message := "write failure" }) ∧
    ∀ out' : Sink, out'.failOn = none →
      (write_cluster_metrics bwc ci va identity_info out').2 = none := by
  constructor
  · rw [write_cluster_metrics_eq, write_families_fail _ _ k (by simp [hf, h0]) hk]
    simp [h0]
  · intro out' h'
    rw [write_cluster_metrics_eq, write_families_success _ _ h']

/-- Witness for C3: a sink failing on its third write call stops the
concrete emission after the first two families, with the error returned. -/
theorem claim_C3_witness :
    write_cluster_metrics bwcEx ciEx [1, 2, 3] iiEx sinkFail3 =
      ({ buffer := sinkFail3.buffer ++
          ((cluster_metric_families bwcEx ciEx [1, 2, 3] iiEx).take 2).map render_family,
         failOn := sinkFail3.failOn, writeCount := 2 + 1 },
       some { message := "write failure" }) :=
  (claim_C3_sink_failure_aborts bwcEx ciEx [1, 2, 3] iiEx sinkFail3 2 rfl rfl
    (by decide)).1

/-- C9: the writer is a deterministic function of its inputs — two
invocations on identical snapshots, identity, tracked accounts and
identity lookup append byte-identical output to the sink and return the
same result. -/
theorem claim_C9_deterministic (bwc : BanksWithCommitments) (ci : ClusterInfo)
    (va : List Pubkey) (identity_info : IdentityInfoMap) (s₁ s₂ : Sink)
    (h₁ : s₁.failOn = none) (h₂ : s₂.failOn = none) (hb : s₁.buffer = s₂.buffer) :
    (write_cluster_metrics bwc ci va identity_info s₁).1.buffer =
      (write_cluster_metrics bwc ci va identity_info s₂).1.buffer ∧
    (write_cluster_metrics bwc ci va identity_info s₁).2 =
      (write_cluster_metrics bwc ci va identity_info s₂).2 := by
  rw [write_cluster_metrics_eq, write_cluster_metrics_eq,
    write_families_success _ _ h₁, write_families_success _ _ h₂]
  exact ⟨by simp [hb], rfl⟩

/-- Witness for C9: two fresh sinks (with different write counters)
receive identical bytes from the same inputs. -/
theorem claim_C9_witness :
    (write_cluster_metrics bwcEx ciEx [1, 2] iiEx sinkEx).1.buffer =
      (write_cluster_metrics bwcEx ciEx [1, 2] iiEx sinkEx2).1.buffer ∧
    (write_cluster_metrics bwcEx ciEx [1, 2] iiEx sinkEx).2 =
      (write_cluster_metrics bwcEx ciEx [1, 2] iiEx sinkEx2).2 :=
  claim_C9_deterministic bwcEx ciEx [1, 2] iiEx sinkEx sinkEx2 rfl rfl rfl

/-- C5 counterexample: in the concrete scenario the node's version lookup
has no entry for its identity key, yet the version family the writer
emits (third in the sequence) contains one series — labeled with the
default version string — not zero series as the claim states. -/
theorem claim_C5_counterexample :
    ciEx.get_node_version ciEx.id = none ∧
    (cluster_metric_families bwcEx ciEx [1] iiEx)[2]? =
      some (version_info_family default_version) ∧
    (version_info_family default_version).metrics.length = 1 := by
  refine ⟨rfl, rfl, rfl⟩

/-- C5 (amended): when node-version information is absent for the node's
identity key, no fault is raised — the writer still succeeds whenever the
sink does — but the version family is not dropped: the writer emits it
(third in sequence) with exactly one series of value 1 whose version
label is the default version string. -/
theorem claim_C5_amended (bwc : BanksWithCommitments) (ci : ClusterInfo)
    (va : List Pubkey) (identity_info : IdentityInfoMap)
    (h : ci.get_node_version ci.id = none) :
    (cluster_metric_families bwc ci va identity_info)[2]? =
      some (version_info_family default_version) ∧
    (version_info_family default_version).metrics =
      [(Metric.new 1).with_label "version" default_version] ∧
    ∀ out : Sink, out.failOn = none →
      (write_cluster_metrics bwc ci va identity_info out).2 = none := by
  refine ⟨?_, rfl, ?_⟩
  · simp [cluster_metric_families, h]
  · intro out h'
    rw [write_cluster_metrics_eq, write_families_success _ _ h']

/-- Witness for C5 (amended): the concrete scenario, where the version
lookup is empty. -/
theorem claim_C5_witness :
    (cluster_metric_families bwcEx ciEx [1] iiEx)[2]? =
      some (version_info_family default_version) :=
  (claim_C5_amended bwcEx ciEx [1] iiEx rfl).1

/-- C2 counterexample: vote account 2 is present in the example
snapshot's vote-account set with zero recorded votes, yet its balance
family contains no series at all; with account 1 (has votes, has
metadata) and account 2 (exists, no votes, no metadata) at a single
commitment level, the balance families contain one series in total, not
two. -/
theorem claim_C2_counterexample :
    bankEx.vote_accounts.lookup 2 = some (50, some vsB) ∧
    vsB.votes = [] ∧
    (vote_account_balance_family bwcEx iiEx 2).metrics.length = 0 ∧
    (vote_account_balance_family bwcEx iiEx 1).metrics.length +
      (vote_account_balance_family bwcEx iiEx 2).metrics.length = 1 := by
  refine ⟨rfl, rfl, rfl, rfl⟩

/-- C2 (amended): a tracked vote account that exists in every snapshot's
vote-account set with zero recorded votes produces no series in the
last-vote family at any commitment level, and none in the balance family
either (both gate on the same resolver); in the two-account scenario the
last-vote and the balance family of account 1 each contain exactly one
series while account 2 contributes none. -/
theorem claim_C2_amended (bwc : BanksWithCommitments) (identity_info : IdentityInfoMap)
    (v : Pubkey)
    (h : ∀ p ∈ bwc.banks, ∃ stake vs,
      p.2.vote_accounts.lookup v = some (stake, vs) ∧
      (vs.getD VoteState.default).votes = []) :
    (last_vote_slot_family bwc identity_info v).metrics = [] ∧
    (vote_account_balance_family bwc identity_info v).metrics = [] ∧
    (last_vote_slot_family bwcEx iiEx 1).metrics.length = 1 ∧
    (vote_account_balance_family bwcEx iiEx 1).metrics.length = 1 := by
  have hnone : ∀ p ∈ bwc.banks, get_vote_state p.2 v identity_info = none := by
    intro p hp
    rcases h p hp with ⟨stake, vs, hl, hempty⟩
    cases hres : get_vote_state p.2 v identity_info with
    | none => rfl
    | some vi =>
      rcases (get_vote_state_eq_some_iff p.2 v identity_info vi).mp hres with
        ⟨s₁, v₁, last, hl₁, hg, _⟩
      have hv : vs = v₁ := congrArg Prod.snd (Option.some.inj (hl.symm.trans hl₁))
      rw [← hv, hempty] at hg
      simp at hg
  refine ⟨?_, ?_, rfl, rfl⟩
  · rw [List.eq_nil_iff_forall_not_mem]
    intro m hm
    rcases (mem_last_vote_slot_family bwc identity_info v m).mp hm with
      ⟨lvl, bank, vi, hmem, hvi, _⟩
    rw [hnone (lvl, bank) hmem] at hvi
    cases hvi
  · rw [List.eq_nil_iff_forall_not_mem]
    intro m hm
    rcases (mem_vote_account_balance_family bwc identity_info v m).mp hm with
      ⟨lvl, bank, vi, hmem, hvi, _⟩
    rw [hnone (lvl, bank) hmem] at hvi
    cases hvi

/-- Witness for C2 (amended): account 2 of the example scenario exists
with zero votes and contributes no series to either family. -/
theorem claim_C2_witness :
    (last_vote_slot_family bwcEx iiEx 2).metrics = [] ∧
    (vote_account_balance_family bwcEx iiEx 2).metrics = [] ∧
    (last_vote_slot_family bwcEx iiEx 1).metrics.length = 1 ∧
    (vote_account_balance_family bwcEx iiEx 1).metrics.length = 1 :=
  claim_C2_amended bwcEx iiEx 2 (by
    intro p hp
    simp only [bwcEx, List.mem_singleton] at hp
    subst hp
    exact ⟨50, some vsB, by decide, rfl⟩)

/-- C6: every series of the currency-denominated families (identity
balance, vote-account balance, activated stake) carries the raw lamports
integer divided by the fixed currency scale factor, while the
count-denominated families (last-vote slot, vote credits) carry the raw
integer unscaled. -/
theorem claim_C6_value_scaling (bwc : BanksWithCommitments)
    (identity_info : IdentityInfoMap) (v ipk : Pubkey) (m : Metric) :
    (m ∈ (identity_balance_family bwc ipk).metrics →
      ∃ lvl bank, (lvl, bank) ∈ bwc.banks ∧
        m.value = (bank.get_balance ipk : ℚ) / lamports_per_sol) ∧
    (m ∈ (vote_account_balance_family bwc identity_info v).metrics →
      ∃ lvl bank vi, (lvl, bank) ∈ bwc.banks ∧
        get_vote_state bank v identity_info = some vi ∧
        m.value = (vi.balance.amount : ℚ) / lamports_per_sol) ∧
    (m ∈ (active_stake_family bwc identity_info v).metrics →
      ∃ lvl bank vi, (lvl, bank) ∈ bwc.banks ∧
        get_vote_state bank v identity_info = some vi ∧
        m.value = (vi.activated_stake.amount : ℚ) / lamports_per_sol) ∧
    (m ∈ (last_vote_slot_family bwc identity_info v).metrics →
      ∃ lvl bank vi, (lvl, bank) ∈ bwc.banks ∧
        get_vote_state bank v identity_info = some vi ∧
        m.value = (vi.last_vote : ℚ)) ∧
    (m ∈ (vote_credits_family bwc identity_info v).metrics →
      ∃ lvl bank vi, (lvl, bank) ∈ bwc.banks ∧
        get_vote_state bank v identity_info = some vi ∧
        m.value = (vi.vote_credits : ℚ)) := by
  refine ⟨?_, ?_, ?_, ?_, ?_⟩
  · intro hm
    rcases (mem_for_each_commitment bwc (fun bank =>
        some ((Metric.new_sol (Lamports.mk (bank.get_balance ipk))).with_label
          "identity_account" (toString ipk))) m).mp hm with ⟨lvl, bank, m₀, hmem, hf, rfl⟩
    cases Option.some.inj hf
    exact ⟨lvl, bank, hmem, rfl⟩
  · intro hm
    rcases (mem_vote_account_balance_family bwc identity_info v m).mp hm with
      ⟨lvl, bank, vi, hmem, hvi, rfl⟩
    refine ⟨lvl, bank, vi, hmem, hvi, ?_⟩
    rw [with_label_value, vote_account_labels_value]
    rfl
  · intro hm
    rcases (mem_active_stake_family bwc identity_info v m).mp hm with
      ⟨lvl, bank, vi, hmem, hvi, rfl⟩
    refine ⟨lvl, bank, vi, hmem, hvi, ?_⟩
    rw [with_label_value, vote_account_labels_value]
    rfl
  · intro hm
    rcases (mem_last_vote_slot_family bwc identity_info v m).mp hm with
      ⟨lvl, bank, vi, hmem, hvi, rfl⟩
    refine ⟨lvl, bank, vi, hmem, hvi, ?_⟩
    rw [with_label_value, vote_account_labels_value]
    rfl
  · intro hm
    rcases (mem_vote_credits_family bwc identity_info v m).mp hm with
      ⟨lvl, bank, vi, hmem, hvi, rfl⟩
    refine ⟨lvl, bank, vi, hmem, hvi, ?_⟩
    rw [with_label_value, vote_account_labels_value]
    rfl

/-- Witness for C6: the concrete balance series of account 1 carries
3000000000 lamports scaled to 3 SOL. -/
theorem claim_C6_witness :
    (∃ lvl bank vi, (lvl, bank) ∈ bwcEx.banks ∧
      get_vote_state bank 1 iiEx = some vi ∧
      mBalEx.value = (vi.balance.amount : ℚ) / lamports_per_sol) ∧
    mBalEx.value = 3 :=
  ⟨(claim_C6_value_scaling bwcEx iiEx 1 5 mBalEx).2.1
      ((mem_vote_account_balance_family bwcEx iiEx 1 mBalEx).mpr
        ⟨"finalized", bankEx, viAEx, by decide, by decide, rfl⟩),
   by
    rw [mBalEx, with_label_value, vote_account_labels_value]
    norm_num [Metric.new_sol, lamports_per_sol, viAEx]⟩

/-- On any series of a per-vote-account family built from a bare-valued
base metric, the `validator_name` key is present iff the record's
identity has a metadata entry. -/
theorem validator_name_label_aux (bwc : BanksWithCommitments)
    (identity_info : IdentityInfoMap) (v : Pubkey) (m : Metric)
    (g : ValidatorVoteInfo → Metric) (hg : ∀ vi, (g vi).labels = [])
    (hm : m ∈ bwc.for_each_commitment fun bank => do
      let vote_info ← get_vote_state bank v identity_info
      some (vote_account_labels v vote_info (g vote_info))) :
    ∃ lvl bank vi, (lvl, bank) ∈ bwc.banks ∧
      get_vote_state bank v identity_info = some vi ∧
      vi.validator_info = identity_info.lookup vi.identity ∧
      ("validator_name" ∈ m.label_keys ↔ (identity_info.lookup vi.identity).isSome) := by
  rcases (mem_vote_family bwc identity_info v
      (fun vi => vote_account_labels v vi (g vi)) m).mp hm with ⟨lvl, bank, vi, hmem, hvi, rfl⟩
  have hval : vi.validator_info = identity_info.lookup vi.identity := by
    rcases (get_vote_state_eq_some_iff bank v identity_info vi).mp hvi with
      ⟨stake, vs, last, _, _, hvi_eq⟩
    rw [hvi_eq]
  refine ⟨lvl, bank, vi, hmem, hvi, hval, ?_⟩
  rw [vote_account_labels_keys v vi (g vi) (hg vi) lvl, ← hval]
  cases hinfo : vi.validator_info <;> simp

/-- C7: on every emitted per-vote-account series, the `validator_name`
label key is present iff the identity-metadata lookup has an entry for
the record's identity key (the vote state's node pubkey); when the
lookup has no entry, the key is entirely absent from the series' label
set, not set to an empty string. -/
theorem claim_C7_validator_name_label (bwc : BanksWithCommitments)
    (identity_info : IdentityInfoMap) (v : Pubkey) (fam : MetricFamily) (m : Metric)
    (hfam : fam ∈ vote_account_families bwc identity_info v)
    (hm : m ∈ fam.metrics) :
    ∃ lvl bank vi, (lvl, bank) ∈ bwc.banks ∧
      get_vote_state bank v identity_info = some vi ∧
      vi.validator_info = identity_info.lookup vi.identity ∧
      ("validator_name" ∈ m.label_keys ↔ (identity_info.lookup vi.identity).isSome) := by
  simp only [vote_account_families, List.mem_cons, List.mem_singleton,
    List.not_mem_nil, or_false] at hfam
  rcases hfam with rfl | rfl | rfl | rfl
  · exact validator_name_label_aux bwc identity_info v m
      (fun vi => Metric.new vi.last_vote) (fun vi => rfl) hm
  · exact validator_name_label_aux bwc identity_info v m
      (fun vi => Metric.new_sol vi.balance) (fun vi => rfl) hm
  · exact validator_name_label_aux bwc identity_info v m
      (fun vi => Metric.new vi.vote_credits) (fun vi => rfl) hm
  · exact validator_name_label_aux bwc identity_info v m
      (fun vi => Metric.new_sol vi.activated_stake) (fun vi => rfl) hm

/-- Witness for C7: account 1's series carries the name label (metadata
present), account 3's series lacks the key entirely (no metadata). -/
theorem claim_C7_witness :
    (∃ lvl bank vi, (lvl, bank) ∈ bwcEx.banks ∧
      get_vote_state bank 1 iiEx = some vi ∧
      vi.validator_info = iiEx.lookup vi.identity ∧
      ("validator_name" ∈ mLastVoteEx.label_keys ↔ (iiEx.lookup vi.identity).isSome)) ∧
    (∃ lvl bank vi, (lvl, bank) ∈ bwcEx.banks ∧
      get_vote_state bank 3 iiEx = some vi ∧
      vi.validator_info = iiEx.lookup vi.identity ∧
      ("validator_name" ∈ mLastVoteC.label_keys ↔ (iiEx.lookup vi.identity).isSome)) :=
  ⟨claim_C7_validator_name_label bwcEx iiEx 1 (last_vote_slot_family bwcEx iiEx 1)
      mLastVoteEx (by simp [vote_account_families])
      ((mem_last_vote_slot_family bwcEx iiEx 1 mLastVoteEx).mpr
        ⟨"finalized", bankEx, viAEx, by decide, by decide, rfl⟩),
   claim_C7_validator_name_label bwcEx iiEx 3 (last_vote_slot_family bwcEx iiEx 3)
      mLastVoteC (by simp [vote_account_families])
      ((mem_last_vote_slot_family bwcEx iiEx 3 mLastVoteC).mpr
        ⟨"finalized", bankEx, viCEx, by decide, by decide, rfl⟩)⟩
